import Mathlib

/-!
# Shadow: syscall-handler helpers (`src/main/host/syscall/protected.c`)

A shallow embedding of the protected helper functions of Shadow's
syscall handler: descriptor validation, the listen-timeout operations and the
blocked-state query.

Conventions of the embedding.

* C pointers to timers are addresses (`TimerPtr`) into a heap of timer
  objects held by the `World`; `NULL` is `none`.  The handler's own timer
  (`sys->timer`) and the timer referenced by the thread's syscall condition
  are both such addresses, so aliasing between them is representable.
* A call that ends in `utility_panic` or a failed `utility_assert` never
  returns; it is modelled by the result `none`.  `MAGIC_ASSERT(sys)` checks
  the debug tag of the handler structure, holds for every handler value of
  the model, and is left out.
* The timer implementation (`timer_setTime`, `timer_getTime`,
  `timer_getExpirationCount`) is not part of `protected.c`; the functions are
  parametric in it (`TimerOps`).
* Machine integers are `Int` / `Nat`; no arithmetic is performed on them here,
  only comparisons with zero and equality tests.
-/

namespace Shadow

/-! ## Constants of the system headers -/

/-- The value of `EBADF` in `<errno.h>` on Linux. -/
def EBADF : Int := 9

/-- The value of `EINVAL` in `<errno.h>` on Linux. -/
def EINVAL : Int := 22

/-- The value of `TFD_TIMER_ABSTIME` in `<sys/timerfd.h>`. -/
def TFD_TIMER_ABSTIME : Int := 1

/-! ## Data model -/

/-- The C `struct timespec`: seconds and nanoseconds, both signed. -/
structure Timespec where
  tv_sec : Int
  tv_nsec : Int
  deriving DecidableEq, Repr

/-- The zero-initialised `(struct timespec){0}`. -/
def Timespec.zero : Timespec := { tv_sec := 0, tv_nsec := 0 }

/-- The C `struct itimerspec`: repeat interval and expiration value. -/
structure Itimerspec where
  it_interval : Timespec
  it_value : Timespec
  deriving DecidableEq, Repr

/-- Modelled from the spec: the `TimeoutType` enumeration of `protected.h`
(not among the sources).  The spec names the two modes ABSOLUTE and
RELATIVE; `protected.c` uses the enumerators `TIMEOUT_ABSOLUTE` and
`TIMEOUT_RELATIVE`. -/
inductive TimeoutType where
  | TIMEOUT_ABSOLUTE
  | TIMEOUT_RELATIVE
  deriving DecidableEq, Repr

/-- An address of a `Timer` object in the heap. -/
abbrev TimerPtr := Nat

/-- The timer operations that `protected.c` calls and `timer.c` (not among the
sources) implements, over an abstract timer state `T` and host `H`.

* `timer_setTime timer host flags new_value` is
  `timer_setTime(timer, host, flags, &new_value, NULL)`: it returns the result
  code and the timer as the call leaves it.
* `timer_getTime timer` is `timer_getTime(timer, &value)`: the result code and
  the value written to `value`.
* `timer_getExpirationCount timer` reads the expiration counter through a
  `const Timer*`. -/
structure TimerOps (T H : Type) where
  timer_setTime : T → H → Int → Itimerspec → Int × T
  timer_getTime : T → Int × Itimerspec
  timer_getExpirationCount : T → Nat

/-- Modelled from the spec: the `SysCallCondition` object
(`syscall_condition.h` is not among the sources).  The spec gives it an
optional reference to a Virtual Timer; `protected.c` reads that reference
with `syscallcondition_timeout(cond)`, which is the field `timeout`. -/
structure SysCallCondition where
  timeout : Option TimerPtr
  deriving DecidableEq, Repr

/-- Modelled from the spec: the `Thread` object (`thread.h` is not among the
sources).  The spec allows at most one active condition per thread;
`protected.c` reads it with `thread_getSysCallCondition(thread)`, which is
the field `cond` (`none` for `NULL`). -/
structure Thread where
  cond : Option SysCallCondition
  deriving DecidableEq, Repr

/-- Modelled from the spec: the `SysCallHandler` structure
(`syscall_handler.h` is not among the sources), with the four members that
`protected.c` accesses: `sys->host`, `sys->thread`, `sys->timer` and
`sys->blockedSyscallNR`. -/
structure SysCallHandler (H : Type) where
  host : H
  thread : Thread
  timer : TimerPtr
  blockedSyscallNR : Int

/-- The memory the handler functions operate on: the heap of timer objects
and the handler itself. -/
structure World (T H : Type) where
  timers : TimerPtr → T
  sys : SysCallHandler H

/-- Modelled from the spec: the `LegacyDescriptor` object (`descriptor.h` is
not among the sources).  The spec gives a descriptor a handle, a type tag and
a status bit-set; `protected.c` reads them with `descriptor_getHandle`,
`descriptor_getType` and `descriptor_getStatus`. -/
structure LegacyDescriptor where
  handle : Int
  type : Int
  status : Nat
  deriving DecidableEq, Repr

/-! ## The functions of `protected.c` -/

/-- Embedding of `_syscallhandler_setListenTimeout` (`protected.c`, lines 22-42).
The result is `none` when the call panics. -/
def _syscallhandler_setListenTimeout {T H : Type} (ops : TimerOps T H) (w : World T H)
    (timeout : Option Timespec) (type : TimeoutType) : Option (World T H) :=
  let value : Itimerspec :=
    { it_interval := Timespec.zero
      it_value := match timeout with
        | some t => t
        | none => Timespec.zero }
  let result := ops.timer_setTime (w.timers w.sys.timer) w.sys.host
    (if type = TimeoutType.TIMEOUT_ABSOLUTE then TFD_TIMER_ABSTIME else 0) value
  if result.1 ≠ 0 then
    none
  else
    some { w with timers := Function.update w.timers w.sys.timer result.2 }

/-- Embedding of `_syscallhandler_setListenTimeoutMillis` (`protected.c`, lines
44-48).  The helper `utility_timespecFromMillis` is not among the sources and
is taken as a parameter. -/
def _syscallhandler_setListenTimeoutMillis {T H : Type} (ops : TimerOps T H)
    (utility_timespecFromMillis : Int → Timespec) (w : World T H) (timeout_ms : Int) :
    Option (World T H) :=
  let timeout := utility_timespecFromMillis timeout_ms
  _syscallhandler_setListenTimeout ops w (some timeout) TimeoutType.TIMEOUT_RELATIVE

/-- Embedding of the static `_syscallhandler_timeout` (`protected.c`, lines
50-59): the timer of the thread's current syscall condition, if any. -/
def _syscallhandler_timeout {H : Type} (sys : SysCallHandler H) : Option TimerPtr :=
  match sys.thread.cond with
  | none => none
  | some cond => cond.timeout

/-- Embedding of `_syscallhandler_isListenTimeoutPending` (`protected.c`, lines
61-75).  The result is `none` when `utility_assert(result == 0)` fails. -/
def _syscallhandler_isListenTimeoutPending {T H : Type} (ops : TimerOps T H)
    (w : World T H) : Option Bool :=
  match _syscallhandler_timeout w.sys with
  | none => some false
  | some timeout =>
    let r := ops.timer_getTime (w.timers timeout)
    if r.1 ≠ 0 then
      none
    else
      some (decide (r.2.it_value.tv_sec > 0) || decide (r.2.it_value.tv_nsec > 0))

/-- Embedding of `_syscallhandler_didListenTimeoutExpire` (`protected.c`, lines
77-88), in state-passing form: the returned world is the argument, since the
function only reads through `const` pointers. -/
def _syscallhandler_didListenTimeoutExpire {T H : Type} (ops : TimerOps T H)
    (w : World T H) : Bool × World T H :=
  match _syscallhandler_timeout w.sys with
  | none => (false, w)
  | some timeout => (decide (ops.timer_getExpirationCount (w.timers timeout) > 0), w)

/-- Embedding of `_syscallhandler_wasBlocked` (`protected.c`, line 90). -/
def _syscallhandler_wasBlocked {H : Type} (sys : SysCallHandler H) : Bool :=
  decide (sys.blockedSyscallNR ≥ 0)

/-- Embedding of `_syscallhandler_validateDescriptor` (`protected.c`, lines
92-115).  The enumerators `STATUS_DESCRIPTOR_CLOSED` (`status.h`) and `DT_NONE`
(`descriptor_types.h`) are not among the sources and are parameters. -/
def _syscallhandler_validateDescriptor (STATUS_DESCRIPTOR_CLOSED : Nat) (DT_NONE : Int)
    (descriptor : Option LegacyDescriptor) (expectedType : Int) : Int :=
  match descriptor with
  | some d =>
    let status := d.status
    if status &&& STATUS_DESCRIPTOR_CLOSED ≠ 0 then
      -EBADF
    else
      let type := d.type
      if expectedType ≠ DT_NONE ∧ type ≠ expectedType then
        -EINVAL
      else
        0
  | none => -EBADF

/-- Polling `_syscallhandler_didListenTimeoutExpire` a number of times in a
row: each call runs in the world the previous one left, and the answers are
collected in call order. -/
def pollDidListenTimeoutExpire {T H : Type} (ops : TimerOps T H) :
    Nat → World T H → List Bool × World T H
  | 0, w => ([], w)
  | n + 1, w =>
    let r := _syscallhandler_didListenTimeoutExpire ops w
    let rest := pollDidListenTimeoutExpire ops n r.2
    (r.1 :: rest.1, rest.2)

/-! ## The Virtual Timer, from the specification -/

/-- Modelled from the spec: the Virtual Timer object (`timer.c` and `timer.h`
are not among the sources).  The spec lists its attributes: an
absolute-or-relative expiration time (zero when disarmed), a repeat interval
(zero for one-shot) and an expiration counter. -/
structure Timer where
  expiration : Timespec
  absolute : Bool
  interval : Timespec
  expirationCount : Nat
  deriving DecidableEq, Repr

/-- Modelled from the spec: `timer_setTime` of `timer.c` (not among the
sources).  Setting a new expiration always discards the previous armed state
and nothing is merged or accumulated across rearms, so the expiration counter
restarts at zero; the flag `TFD_TIMER_ABSTIME` selects the absolute reading of
the expiration; the operation has no failure mode and reports 0. -/
def timer_setTime {H : Type} (_timer : Timer) (_host : H) (flags : Int)
    (new_value : Itimerspec) : Int × Timer :=
  (0, { expiration := new_value.it_value
        absolute := decide (flags = TFD_TIMER_ABSTIME)
        interval := new_value.it_interval
        expirationCount := 0 })

/-- Modelled from the spec: `timer_getTime` of `timer.c` (not among the
sources): it reports the timer's current expiration value and its repeat
interval, and succeeds. -/
def timer_getTime (timer : Timer) : Int × Itimerspec :=
  (0, { it_interval := timer.interval, it_value := timer.expiration })

/-- Modelled from the spec: `timer_getExpirationCount` of `timer.c` (not among
the sources): it reads the expiration counter and does not reset it. -/
def timer_getExpirationCount (timer : Timer) : Nat :=
  timer.expirationCount

/-- Modelled from the spec: the Virtual Timer (`timer.c`, not among the
sources) as an implementation of the timer operations `protected.c` calls. -/
def timerOps (H : Type) : TimerOps Timer H where
  timer_setTime := timer_setTime
  timer_getTime := timer_getTime
  timer_getExpirationCount := timer_getExpirationCount

/-- A running thread with no syscall condition attached: every timer in the
heap is disarmed, the handler's timer lives at address 0, and
`blockedSyscallNR` is negative. -/
def runningWorld : World Timer Unit where
  timers := fun _ =>
    { expiration := Timespec.zero, absolute := false, interval := Timespec.zero,
      expirationCount := 0 }
  sys := { host := (), thread := { cond := none }, timer := 0, blockedSyscallNR := -1 }

/-! ## Descriptor validation -/

/-- C1. `_syscallhandler_validateDescriptor` returns `-EBADF` if and only if
the reference is missing or the descriptor's status intersects
`STATUS_DESCRIPTOR_CLOSED`, for every expected type (`DT_NONE` included) and
whatever the descriptor's type and other status bits are; when the flag is the
single bit `2 ^ k`, that is exactly when bit `k` of the status is set. -/
theorem validateDescriptor_ebadf_iff (closed : Nat) (dtNone : Int)
    (descriptor : Option LegacyDescriptor) (expectedType : Int) :
    (_syscallhandler_validateDescriptor closed dtNone descriptor expectedType = -EBADF ↔
      descriptor = none ∨ ∃ d, descriptor = some d ∧ d.status &&& closed ≠ 0) ∧
    (∀ k : Nat,
      _syscallhandler_validateDescriptor (2 ^ k) dtNone descriptor expectedType = -EBADF ↔
        descriptor = none ∨ ∃ d, descriptor = some d ∧ d.status.testBit k = true) := by
  have key : ∀ c : Nat,
      (_syscallhandler_validateDescriptor c dtNone descriptor expectedType = -EBADF ↔
        descriptor = none ∨ ∃ d, descriptor = some d ∧ d.status &&& c ≠ 0) := by
    intro c
    cases descriptor with
    | none => simp [_syscallhandler_validateDescriptor]
    | some d =>
      by_cases hc : d.status &&& c = 0
      · by_cases ht : expectedType ≠ dtNone ∧ d.type ≠ expectedType
        · simp [_syscallhandler_validateDescriptor, hc, ht, EBADF, EINVAL]
        · simp [_syscallhandler_validateDescriptor, hc, ht, EBADF]
      · simp [_syscallhandler_validateDescriptor, hc]
  refine ⟨key closed, ?_⟩
  intro k
  rw [key (2 ^ k)]
  have hbit : ∀ n : Nat, (n &&& 2 ^ k ≠ 0 ↔ n.testBit k = true) := by
    intro n
    rw [Nat.and_two_pow]
    cases h : n.testBit k <;> simp
  simp only [hbit]

/-- C2. For an existing descriptor whose status does not intersect
`STATUS_DESCRIPTOR_CLOSED`, `_syscallhandler_validateDescriptor` returns 0 when
the expected type is `DT_NONE` or equals the descriptor's type, and `-EINVAL`
otherwise: exactly when an expected type other than `DT_NONE` was given and
differs from the descriptor's type. -/
theorem validateDescriptor_open (closed : Nat) (dtNone : Int) (d : LegacyDescriptor)
    (expectedType : Int) (hopen : d.status &&& closed = 0) :
    _syscallhandler_validateDescriptor closed dtNone (some d) expectedType =
        (if expectedType = dtNone ∨ d.type = expectedType then 0 else -EINVAL) ∧
    (_syscallhandler_validateDescriptor closed dtNone (some d) expectedType = 0 ↔
        expectedType = dtNone ∨ d.type = expectedType) ∧
    (_syscallhandler_validateDescriptor closed dtNone (some d) expectedType = -EINVAL ↔
        expectedType ≠ dtNone ∧ d.type ≠ expectedType) := by
  by_cases h1 : expectedType = dtNone
  · simp [_syscallhandler_validateDescriptor, hopen, h1, EINVAL]
  · by_cases h2 : d.type = expectedType
    · simp [_syscallhandler_validateDescriptor, hopen, h1, h2, EINVAL]
    · simp [_syscallhandler_validateDescriptor, hopen, h1, h2, EINVAL]

/-- Witness for C2: an open descriptor of type 1 (status `0b0011`, closed flag
`0b1000`) validated against the expected type 1. -/
theorem validateDescriptor_open_witness :
    (3 : Nat) &&& 8 = 0 ∧
    _syscallhandler_validateDescriptor 8 0 (some { handle := 4, type := 1, status := 3 }) 1 = 0 :=
  ⟨by decide,
   ((validateDescriptor_open 8 0 { handle := 4, type := 1, status := 3 } 1 (by decide)).2.1).2
     (Or.inr rfl)⟩

/-! ## Listen-timeout queries -/

/-- C3. When the timer read succeeds and reports a non-negative remaining
time (the values a timer reports), `_syscallhandler_isListenTimeoutPending`
returns, and it returns true if and only if the thread's syscall condition has
a timer whose reported expiration value `it_value` is not zero; it returns
false when the thread has no syscall condition and when the condition has no
timer. -/
theorem isListenTimeoutPending_iff_nonzero {T H : Type} (ops : TimerOps T H) (w : World T H)
    (hok : ∀ p, _syscallhandler_timeout w.sys = some p →
      (ops.timer_getTime (w.timers p)).1 = 0)
    (hnonneg : ∀ p, _syscallhandler_timeout w.sys = some p →
      0 ≤ (ops.timer_getTime (w.timers p)).2.it_value.tv_sec ∧
      0 ≤ (ops.timer_getTime (w.timers p)).2.it_value.tv_nsec) :
    ∃ b, _syscallhandler_isListenTimeoutPending ops w = some b ∧
      (b = true ↔ ∃ c p, w.sys.thread.cond = some c ∧ c.timeout = some p ∧
        (ops.timer_getTime (w.timers p)).2.it_value ≠ Timespec.zero) ∧
      (w.sys.thread.cond = none → b = false) ∧
      (∀ c, w.sys.thread.cond = some c → c.timeout = none → b = false) := by
  unfold _syscallhandler_isListenTimeoutPending
  cases hc : w.sys.thread.cond with
  | none =>
    refine ⟨false, ?_, ?_, ?_, ?_⟩
    · simp [_syscallhandler_timeout, hc]
    · simp
    · simp
    · simp
  | some c =>
    cases hp : c.timeout with
    | none =>
      refine ⟨false, ?_, ?_, ?_, ?_⟩
      · simp [_syscallhandler_timeout, hc, hp]
      · simp [hp]
      · simp
      · simp
    | some p =>
      have hto : _syscallhandler_timeout w.sys = some p := by
        simp [_syscallhandler_timeout, hc, hp]
      have h0 := hok p hto
      obtain ⟨hs, hn⟩ := hnonneg p hto
      refine ⟨decide ((ops.timer_getTime (w.timers p)).2.it_value.tv_sec > 0) ||
        decide ((ops.timer_getTime (w.timers p)).2.it_value.tv_nsec > 0), ?_, ?_, ?_, ?_⟩
      · simp [hto, h0]
      · rcases hv : (ops.timer_getTime (w.timers p)).2.it_value with ⟨s, n⟩
        rw [hv] at hs hn
        dsimp only at hs hn
        simp only [hp, Timespec.zero, Option.some.injEq, exists_eq_left', ne_eq,
          Timespec.mk.injEq, Bool.or_eq_true, decide_eq_true_eq, gt_iff_lt]
        constructor
        · intro h
          refine ⟨c, p, rfl, hp, ?_⟩
          rw [hv]
          intro hz
          simp only [Timespec.mk.injEq] at hz
          omega
        · rintro ⟨c', p', hc', hp', hne⟩
          subst hc'
          rw [hp] at hp'
          cases hp'
          rw [hv] at hne
          simp only [Timespec.mk.injEq] at hne
          omega
      · simp
      · intro c' hc' hnone
        cases hc'
        rw [hp] at hnone
        cases hnone

/-- Witness for C3: a condition whose timer, at address 2, reports five
seconds remaining; the query returns true. -/
theorem isListenTimeoutPending_iff_nonzero_witness :
    ∃ b, _syscallhandler_isListenTimeoutPending
        ({ timer_setTime := fun _ _ _ v => (0, v.it_value)
           timer_getTime := fun t => (0, { it_interval := Timespec.zero, it_value := t })
           timer_getExpirationCount := fun _ => 0 } : TimerOps Timespec Unit)
        { timers := fun _ => { tv_sec := 5, tv_nsec := 0 }
          sys := { host := (), thread := { cond := some { timeout := some 2 } }, timer := 0,
                   blockedSyscallNR := 7 } } = some b ∧ b = true := by
  obtain ⟨b, hb, hiff, _, _⟩ := isListenTimeoutPending_iff_nonzero
    ({ timer_setTime := fun _ _ _ v => (0, v.it_value)
       timer_getTime := fun t => (0, { it_interval := Timespec.zero, it_value := t })
       timer_getExpirationCount := fun _ => 0 } : TimerOps Timespec Unit)
    { timers := fun _ => { tv_sec := 5, tv_nsec := 0 }
      sys := { host := (), thread := { cond := some { timeout := some 2 } }, timer := 0,
               blockedSyscallNR := 7 } }
    (fun _ _ => rfl) (fun _ _ => ⟨by simp, by simp⟩)
  exact ⟨b, hb, hiff.2 ⟨{ timeout := some 2 }, 2, rfl, rfl, by decide⟩⟩

/-- C4. `_syscallhandler_didListenTimeoutExpire` returns true if and only if
the thread's current syscall condition has a timer whose expiration counter is
greater than zero (so false without a condition or without a timer); the call
leaves the world, counter included, as it found it, and any number of polls in
a row all return that same answer. -/
theorem didListenTimeoutExpire_iff_readonly {T H : Type} (ops : TimerOps T H)
    (w : World T H) :
    ((_syscallhandler_didListenTimeoutExpire ops w).1 = true ↔
      ∃ c p, w.sys.thread.cond = some c ∧ c.timeout = some p ∧
        0 < ops.timer_getExpirationCount (w.timers p)) ∧
    (_syscallhandler_didListenTimeoutExpire ops w).2 = w ∧
    (∀ n, pollDidListenTimeoutExpire ops n w =
      (List.replicate n (_syscallhandler_didListenTimeoutExpire ops w).1, w)) := by
  have hsame : (_syscallhandler_didListenTimeoutExpire ops w).2 = w := by
    unfold _syscallhandler_didListenTimeoutExpire
    cases _syscallhandler_timeout w.sys <;> rfl
  refine ⟨?_, hsame, ?_⟩
  · unfold _syscallhandler_didListenTimeoutExpire _syscallhandler_timeout
    cases hc : w.sys.thread.cond with
    | none => simp
    | some c =>
      cases hp : c.timeout with
      | none => simp [hp]
      | some p => simp [hp]
  · intro n
    induction n with
    | zero => rfl
    | succ k ih =>
      simp only [pollDidListenTimeoutExpire, hsame, ih, List.replicate_succ]

/-- C9. `_syscallhandler_wasBlocked` returns true if and only if
`blockedSyscallNR >= 0`: it is false for every negative value and true for
every non-negative one, syscall number 0 included. -/
theorem wasBlocked_iff {H : Type} (sys : SysCallHandler H) :
    (_syscallhandler_wasBlocked sys = true ↔ 0 ≤ sys.blockedSyscallNR) ∧
    (_syscallhandler_wasBlocked sys = false ↔ sys.blockedSyscallNR < 0) ∧
    _syscallhandler_wasBlocked { sys with blockedSyscallNR := 0 } = true := by
  refine ⟨?_, ?_, ?_⟩
  · simp [_syscallhandler_wasBlocked]
  · simp [_syscallhandler_wasBlocked]
  · simp [_syscallhandler_wasBlocked]

/-! ## Arming the listen timeout -/

/-- C7. For every timer implementation, timeout argument and mode,
`_syscallhandler_setListenTimeout` makes one request to the handler's own
timer: repeat interval zero, expiration value the given timeout (zero when the
timeout is `NULL`), and flags `TFD_TIMER_ABSTIME` exactly when the mode is
`TIMEOUT_ABSOLUTE` and 0 (relative) otherwise.  The outcome of the call is
determined by the answer to that request. -/
theorem setListenTimeout_request {H : Type} (host : H) (thread : Thread) (timer : TimerPtr)
    (nr : Int) (timeout : Option Timespec) (type : TimeoutType) :
    ∃ (flags : Int) (value : Itimerspec),
      value.it_interval = Timespec.zero ∧
      value.it_value = timeout.getD Timespec.zero ∧
      (timeout = none → value.it_value = Timespec.zero) ∧
      (flags = TFD_TIMER_ABSTIME ↔ type = TimeoutType.TIMEOUT_ABSOLUTE) ∧
      (flags = 0 ↔ type = TimeoutType.TIMEOUT_RELATIVE) ∧
      ∀ (T : Type) (ops : TimerOps T H) (timers : TimerPtr → T),
        _syscallhandler_setListenTimeout ops
            { timers := timers
              sys := { host := host, thread := thread, timer := timer,
                       blockedSyscallNR := nr } } timeout type =
          if (ops.timer_setTime (timers timer) host flags value).1 = 0 then
            some { timers := Function.update timers timer
                     (ops.timer_setTime (timers timer) host flags value).2
                   sys := { host := host, thread := thread, timer := timer,
                            blockedSyscallNR := nr } }
          else none := by
  refine ⟨if type = TimeoutType.TIMEOUT_ABSOLUTE then TFD_TIMER_ABSTIME else 0,
    { it_interval := Timespec.zero, it_value := timeout.getD Timespec.zero },
    rfl, rfl, ?_, ?_, ?_, ?_⟩
  · intro h
    simp [h]
  · cases type <;> simp [TFD_TIMER_ABSTIME]
  · cases type <;> simp [TFD_TIMER_ABSTIME]
  · intro T ops timers
    cases timeout <;> simp [_syscallhandler_setListenTimeout]

/-- C8. `_syscallhandler_setListenTimeout` panics if and only if the
`timer_setTime` request it makes reports a nonzero result; when the request
reports 0 the call returns, with the handler's timer as `timer_setTime` left
it and everything else unchanged. -/
theorem setListenTimeout_panics_iff {T H : Type} (ops : TimerOps T H) (w : World T H)
    (timeout : Option Timespec) (type : TimeoutType) :
    (_syscallhandler_setListenTimeout ops w timeout type = none ↔
      (ops.timer_setTime (w.timers w.sys.timer) w.sys.host
        (if type = TimeoutType.TIMEOUT_ABSOLUTE then TFD_TIMER_ABSTIME else 0)
        { it_interval := Timespec.zero, it_value := timeout.getD Timespec.zero }).1 ≠ 0) ∧
    ((ops.timer_setTime (w.timers w.sys.timer) w.sys.host
        (if type = TimeoutType.TIMEOUT_ABSOLUTE then TFD_TIMER_ABSTIME else 0)
        { it_interval := Timespec.zero, it_value := timeout.getD Timespec.zero }).1 = 0 ↔
      ∃ w', _syscallhandler_setListenTimeout ops w timeout type = some w' ∧
        w'.sys = w.sys ∧ ∀ p, p ≠ w.sys.timer → w'.timers p = w.timers p) := by
  have hval : (match timeout with
      | some t => t
      | none => Timespec.zero) = timeout.getD Timespec.zero := by
    cases timeout <;> rfl
  unfold _syscallhandler_setListenTimeout
  simp only [hval]
  by_cases h : (ops.timer_setTime (w.timers w.sys.timer) w.sys.host
        (if type = TimeoutType.TIMEOUT_ABSOLUTE then TFD_TIMER_ABSTIME else 0)
        { it_interval := Timespec.zero, it_value := timeout.getD Timespec.zero }).1 = 0
  · simp only [h, ne_eq, not_true_eq_false, if_false, true_iff]
    refine ⟨by simp, _, rfl, rfl, ?_⟩
    intro p hp
    simp [Function.update, hp]
  · simp [h]

/-- C5, as the code has it.  With the Virtual Timer of the specification, in
every handler state whose thread has a syscall condition that refers to the
handler's own timer, arming a timeout `t > 0` in RELATIVE mode through
`_syscallhandler_setListenTimeout` returns, and immediately afterwards
`_syscallhandler_isListenTimeoutPending` returns true and
`_syscallhandler_didListenTimeoutExpire` returns false; the same holds for
`_syscallhandler_setListenTimeoutMillis` whenever the converted timeout is
`t`. -/
theorem setListenTimeout_relative_pending {H : Type} (w : World Timer H) (t : Timespec)
    (ht : 0 < t.tv_sec ∨ 0 < t.tv_nsec)
    (halias : _syscallhandler_timeout w.sys = some w.sys.timer) :
    (∃ w', _syscallhandler_setListenTimeout (timerOps H) w (some t)
          TimeoutType.TIMEOUT_RELATIVE = some w' ∧
        _syscallhandler_isListenTimeoutPending (timerOps H) w' = some true ∧
        (_syscallhandler_didListenTimeoutExpire (timerOps H) w').1 = false) ∧
    (∀ (utility_timespecFromMillis : Int → Timespec) (timeout_ms : Int),
      utility_timespecFromMillis timeout_ms = t →
      ∃ w', _syscallhandler_setListenTimeoutMillis (timerOps H) utility_timespecFromMillis w
          timeout_ms = some w' ∧
        _syscallhandler_isListenTimeoutPending (timerOps H) w' = some true ∧
        (_syscallhandler_didListenTimeoutExpire (timerOps H) w').1 = false) := by
  have main : ∃ w', _syscallhandler_setListenTimeout (timerOps H) w (some t)
          TimeoutType.TIMEOUT_RELATIVE = some w' ∧
        _syscallhandler_isListenTimeoutPending (timerOps H) w' = some true ∧
        (_syscallhandler_didListenTimeoutExpire (timerOps H) w').1 = false := by
    refine ⟨_, rfl, ?_, ?_⟩
    · simp only [_syscallhandler_isListenTimeoutPending, halias, timerOps, timer_getTime,
        Function.update_same]
      simpa using ht
    · simp [_syscallhandler_didListenTimeoutExpire, halias, timerOps,
        timer_getExpirationCount, timer_setTime]
  refine ⟨main, ?_⟩
  intro conv ms hconv
  unfold _syscallhandler_setListenTimeoutMillis
  rw [hconv]
  exact main

/-- Witness for C5: a blocked thread whose condition refers to the handler's
timer at address 0, armed with 1.5 seconds. -/
theorem setListenTimeout_relative_pending_witness :
    ∃ w', _syscallhandler_setListenTimeout (timerOps Unit)
          { runningWorld with
            sys := { host := (), thread := { cond := some { timeout := some 0 } }, timer := 0,
                     blockedSyscallNR := 35 } }
          (some { tv_sec := 1, tv_nsec := 500000000 }) TimeoutType.TIMEOUT_RELATIVE = some w' ∧
        _syscallhandler_isListenTimeoutPending (timerOps Unit) w' = some true ∧
        (_syscallhandler_didListenTimeoutExpire (timerOps Unit) w').1 = false :=
  (setListenTimeout_relative_pending
    { runningWorld with
      sys := { host := (), thread := { cond := some { timeout := some 0 } }, timer := 0,
               blockedSyscallNR := 35 } }
    { tv_sec := 1, tv_nsec := 500000000 } (Or.inl (by decide)) rfl).1

/-- Counterexample to C5 as stated: in a running thread (no syscall condition)
arming one second in RELATIVE mode returns normally, yet immediately afterwards
`_syscallhandler_isListenTimeoutPending` returns false. -/
theorem setListenTimeout_relative_not_pending :
    (0 : Int) < 1 ∧
    (_syscallhandler_setListenTimeout (timerOps Unit) runningWorld
        (some { tv_sec := 1, tv_nsec := 0 }) TimeoutType.TIMEOUT_RELATIVE).isSome = true ∧
    (_syscallhandler_setListenTimeout (timerOps Unit) runningWorld
        (some { tv_sec := 1, tv_nsec := 0 }) TimeoutType.TIMEOUT_RELATIVE).bind
      (_syscallhandler_isListenTimeoutPending (timerOps Unit)) = some false ∧
    (_syscallhandler_setListenTimeoutMillis (timerOps Unit)
        (fun ms => { tv_sec := ms / 1000, tv_nsec := ms % 1000 * 1000000 }) runningWorld
        1000).bind
      (_syscallhandler_isListenTimeoutPending (timerOps Unit)) = some false := by
  refine ⟨by decide, rfl, rfl, rfl⟩

/-- C6. With the Virtual Timer of the specification, for every handler state
and every two timeouts (each possibly `NULL`, each in either mode), calling
`_syscallhandler_setListenTimeout` with the first and then with the second
leaves the world, the handler's timer included, exactly as calling it with the
second alone does, and all three calls return. -/
theorem setListenTimeout_rearm {H : Type} (w : World Timer H)
    (t1 : Option Timespec) (type1 : TimeoutType) (t2 : Option Timespec) (type2 : TimeoutType) :
    ∃ w1 w2,
      _syscallhandler_setListenTimeout (timerOps H) w t1 type1 = some w1 ∧
      _syscallhandler_setListenTimeout (timerOps H) w1 t2 type2 = some w2 ∧
      _syscallhandler_setListenTimeout (timerOps H) w t2 type2 = some w2 ∧
      w2.timers w2.sys.timer =
        { expiration := t2.getD Timespec.zero
          absolute := decide (type2 = TimeoutType.TIMEOUT_ABSOLUTE)
          interval := Timespec.zero
          expirationCount := 0 } := by
  refine ⟨_, _, rfl, rfl, ?_, ?_⟩
  · simp [_syscallhandler_setListenTimeout, timerOps, timer_setTime]
  · cases t2 <;> cases type2 <;>
      simp [_syscallhandler_setListenTimeout, timerOps, timer_setTime, TFD_TIMER_ABSTIME]

end Shadow
